import Mathlib

/-!
Shallow embedding of `src/autogen/browser_utils.py` (the `SimpleTextBrowser`
text-based browser): renderer dispatch, viewport pagination, address
resolution, Bing-search result formatting, and the constructor's
attribute-initialisation order.  External collaborators of the source
(HTTP transport via `requests`, BeautifulSoup/markdownify, pdfminer,
pathvalidate, mimetypes, uuid, the filesystem, the Bing API) are modelled
as parameters gathered in the `Collaborators` structure; everything the
source implements itself is translated directly.
-/

namespace BrowserUtils

/-! ## Basic string helpers mirroring Python primitives -/

/-- Substring containment on character lists: `needle` occurs contiguously
inside `hay`.  The empty needle is contained everywhere, as in Python. -/
def listContainsSub (needle : List Char) : List Char → Bool
  | [] => needle.isEmpty
  | c :: t => needle.isPrefixOf (c :: t) || listContainsSub needle t

/-- Python membership test `needle in hay` on strings (substring containment). -/
def strContainsSub (hay needle : String) : Bool :=
  listContainsSub needle.toList hay.toList

/-- Python `str.lower()` restricted to ASCII case folding (the content types
and addresses handled by the source are ASCII). -/
def pyLower (s : String) : String :=
  String.mk (s.toList.map Char.toLower)

/-- Python `str.startswith(p)`. -/
def pyStartsWith (s p : String) : Bool :=
  p.toList.isPrefixOf s.toList

/-- Python `str.strip()` restricted to ASCII whitespace. -/
def pyStrip (s : String) : String :=
  String.mk (((s.toList.dropWhile Char.isWhitespace).reverse.dropWhile Char.isWhitespace).reverse)

/-- Python slicing `s[n:]`. -/
def pyDropChars (s : String) (n : Nat) : String :=
  String.mk (s.toList.drop n)

/-- Python indexing `content[i]` where a negative `i` counts from the end
(`content[-1]` is the last character).  The default `' '` is never reached
at the call sites below: every use is guarded by bounds that keep the
index valid, matching the source where an out-of-range index would raise. -/
def pyCharAt (content : List Char) (i : Int) : Char :=
  if i < 0 then content.getD (content.length - (-i).toNat) ' '
  else content.getD i.toNat ' '

/-! ## Pagination (`SimpleTextBrowser._split_pages`, lines 290-310)

The source splits `self._page_content` into viewport ranges with a while
loop.  The outer loop is modelled with explicit fuel (`splitPagesGo`):
`none` means the loop has not finished within the given number of
iterations, which is how non-termination (possible when
`viewport_size = 0`) is made observable.  The inner
"advance to a whitespace boundary" loop always terminates because its
guard requires `end_idx < len(content)`; it is modelled with a bounded
counter `extendEndGo` started at `content.length - e`, which is enough to
reach the guard's failure point, so the counter never cuts it short. -/

/-- The whitespace set of line 307: `[" ", "\t", "\r", "\n"]`. -/
def isViewportWs (c : Char) : Bool :=
  c = ' ' || c = '\t' || c = '\r' || c = '\n'

/-- Inner while loop of lines 307-308: extend `end_idx` one character at a
time while it is strictly inside the content and the character before it
(`content[end_idx - 1]`, Python indexing) is not whitespace. -/
def extendEndGo (content : List Char) : Nat → Nat → Nat
  | 0, e => e
  | k + 1, e =>
    if e < content.length && !(isViewportWs (pyCharAt content ((e : Int) - 1))) then
      extendEndGo content k (e + 1)
    else e

/-- Entry point of the inner loop with enough budget to reach the loop's
own exit condition. -/
def extendEnd (content : List Char) (e : Nat) : Nat :=
  extendEndGo content (content.length - e) e

/-- Outer while loop of lines 304-310.  Each iteration takes the candidate
end `min (start_idx + viewport_size) len`, extends it to a whitespace
boundary, emits the range, and continues from the new end.  `none` means
the fuel ran out before `start_idx` reached the end of the content. -/
def splitPagesGo (content : List Char) (vs : Nat) : Nat → Nat → Option (List (Nat × Nat))
  | start, fuel =>
    if start < content.length then
      match fuel with
      | 0 => none
      | fuel + 1 =>
        let e := extendEnd content (min (start + vs) content.length)
        match splitPagesGo content vs e fuel with
        | some rest => some ((start, e) :: rest)
        | none => none
    else some []

/-- `SimpleTextBrowser._split_pages` as a pure function of the current
address, the page content and the viewport size (lines 290-310).  The
loop is given fuel `content.length`, which suffices whenever
`viewport_size ≥ 1` (proved below). -/
def split_pages (address : String) (content : List Char) (vs : Nat) :
    Option (List (Nat × Nat)) :=
  if !(pyStartsWith address "http:" || pyStartsWith address "https:") then
    some [(0, content.length)]
  else if content.length = 0 then
    some [(0, 0)]
  else
    splitPagesGo content vs 0 content.length

/-! ## Data model: responses, render results, Python exceptions -/

/-- The slice of a `requests` response the source reads: the status code,
the `content-type` header (case-insensitive lookup modelled by storing the
header value directly, `none` when absent) and the decoded body.  Reading
the body in 512-byte chunks and concatenating (`_read_all_text`) yields
exactly `body`. -/
structure HttpResponse where
  status_code : Nat
  contentType : Option String
  body : String
deriving DecidableEq, Repr

/-- `TextRendererResult` (lines 31-36). -/
structure TextRendererResult where
  title : Option String
  page_content : String
deriving DecidableEq, Repr

/-- The Python exceptions that can escape the modelled code paths. -/
inductive PyErr where
  /-- Reading an attribute that has not been assigned yet (or an attribute
  of `None`, as in `None.headers`); the string names the attribute. -/
  | attributeError (attr : String)
  /-- `raise ValueError(msg)`. -/
  | valueError (msg : String)
  /-- `requests.exceptions.RequestException`, carrying `ex.response`
  (`none` for a pure transport failure that never received a response). -/
  | requestException (response : Option HttpResponse)
  /-- An unbound local variable. -/
  | nameError (name : String)
  /-- Marker for the `_split_pages` while loop failing to terminate within
  its fuel; reachable only when `viewport_size = 0` (see the termination
  theorem below), never on the paths the source exercises. -/
  | nonTermination
deriving DecidableEq, Repr

/-- Outcome of `requests.get(url, ...)` followed by
`response.raise_for_status()`: either a successful (2xx) response, or a
`RequestException` carrying `ex.response` (`some` for an HTTP error
status, `none` for a transport failure with no response at all). -/
inductive FetchOutcome where
  | success (response : HttpResponse)
  | failure (exResponse : Option HttpResponse)

/-- A deep link item of a Bing web result (`page["deepLinks"]` entries). -/
structure DeepLink where
  name : String
  url : String
  snippet : Option String
deriving DecidableEq, Repr

/-- A Bing web result (`results["webPages"]["value"]` entries);
`deepLinks = none` models a page without the `"deepLinks"` key. -/
structure WebPage where
  name : String
  url : String
  snippet : String
  deepLinks : Option (List DeepLink)
deriving DecidableEq, Repr

/-- A Bing news result (`results["news"]["value"]` entries). -/
structure NewsPage where
  name : String
  url : String
  description : String
deriving DecidableEq, Repr

/-- The JSON shape `_bing_api_call` returns, restricted to the keys
`_bing_search` reads; `news = none` models a response without the
`"news"` key. -/
structure BingResults where
  webPages : List WebPage
  news : Option (List NewsPage)
deriving DecidableEq, Repr

/-- The capabilities of the source's collaborators (imported libraries and
the network), passed as parameters to the embedding: the two pieces of
the BeautifulSoup/markdownify pipeline that `HtmlRenderer.render_page`
(lines 91-105) reads — `htmlTitleTag body` models `soup.title` (`none`
when the parsed document has no `<title>` element, otherwise
`some tag.string`, whose own value may be `None`), and
`htmlBodyMarkdown body` models the script/style removal, the markdownify
conversion and the newline normalisation producing the page content —
plus pdfminer text extraction, availability flags for the optional
imports, `pathvalidate.sanitize_filename`, `mimetypes.guess_extension`,
`str(uuid.uuid4())`, `os.path.abspath(os.path.join(...))`, the HTTP
transport and the Bing API's JSON answer. -/
structure Collaborators where
  htmlTitleTag : String → Option (Option String)
  htmlBodyMarkdown : String → String
  pdfExtractText : String → String
  isPdfCapable : Bool
  pathvalidateAvailable : Bool
  sanitize_filename : String → String
  guess_extension : Option String → Option String
  newUuid : String
  abspath_join : String → String → String
  fetch : String → FetchOutcome
  bingApi : String → BingResults

/-! ## Renderers (`PageTextRenderer` subclasses, lines 39-190) -/

/-- The `PageTextRenderer` interface: `claim_responsibility` and
`render_page`, both taking `(url, status_code, content_type)` as in the
source (`render_page` also receives the response).  `render_page` is a
Python method and can raise — `HtmlRenderer.render_page` does, on a
document without a `<title>` element — so it returns
`Except PyErr TextRendererResult`. -/
structure PageTextRenderer where
  claim_responsibility : String → Nat → Option String → Bool
  render_page : HttpResponse → String → Nat → Option String → Except PyErr TextRendererResult

/-- `PlainTextRenderer` (lines 74-81): claims when the content type
contains `text/plain` (case-insensitively), renders the full body with no
title. -/
def PlainTextRenderer : PageTextRenderer where
  claim_responsibility := fun _ _ ct =>
    match ct with
    | some c => strContainsSub (pyLower c) "text/plain"
    | none => false
  render_page := fun r _ _ _ => .ok { title := none, page_content := r.body }

/-- `HtmlRenderer` (lines 84-105): claims `text/html`.  `render_page`
builds `TextRendererResult(title=soup.title.string, page_content=...)`:
when the parsed document has no `<title>` element, `soup.title` is `None`
and `None.string` raises `AttributeError` (line 103); otherwise the title
is the tag's string (itself possibly `None`) and the content is the
markdownified, newline-normalised body. -/
def HtmlRenderer (htmlTitleTag : String → Option (Option String))
    (htmlBodyMarkdown : String → String) : PageTextRenderer where
  claim_responsibility := fun _ _ ct =>
    match ct with
    | some c => strContainsSub (pyLower c) "text/html"
    | none => false
  render_page := fun r _ _ _ =>
    match htmlTitleTag r.body with
    | none => .error (.attributeError "string")
    | some t => .ok { title := t, page_content := htmlBodyMarkdown r.body }

/-- `PdfRenderer` (lines 108-118): claims `application/pdf`, renders the
pdfminer-extracted text with no title. -/
def PdfRenderer (pdfExtractText : String → String) : PageTextRenderer where
  claim_responsibility := fun _ _ ct =>
    match ct with
    | some c => strContainsSub (pyLower c) "application/pdf"
    | none => false
  render_page := fun r _ _ _ => .ok { title := none, page_content := pdfExtractText r.body }

/-- Python `os.path.basename`: the part of the path after the final
slash. -/
def pyBasename (p : String) : String :=
  String.mk ((p.toList.reverse.takeWhile (fun c => c ≠ '/')).reverse)

/-- The filename computation of `DownloadRenderer.render_page`
(lines 131-143): `fname` starts as `None`; the `try` block assigns the
stripped sanitised basename of the URL path and only a `NameError`
(pathvalidate never imported) leaves it `None`; only then is a fresh
UUID-based name with a guessed extension (default `.download`)
generated. -/
def download_fname (C : Collaborators) (urlPath : String) (content_type : Option String) :
    String :=
  let fname : Option String :=
    if C.pathvalidateAvailable then
      some (pyStrip (C.sanitize_filename (pyBasename urlPath)))
    else none
  match fname with
  | none => C.newUuid ++ ((C.guess_extension content_type).getD ".download")
  | some f => f

/-! ## URL parsing and joining (`urllib.parse`, used at lines 134 and 247)

Translation of CPython's `urlsplit`/`urljoin` restricted to the
`(scheme, netloc, path, query, fragment)` components; the `params`
component (a `;` suffix of the last path segment, split off by `urlparse`
but not by `urlsplit`) is not modelled, which is equivalence-preserving
for every address without `;`. -/

/-- A parsed URL. -/
structure UrlParts where
  scheme : String
  netloc : String
  path : String
  query : String
  fragment : String
deriving DecidableEq, Repr

/-- Characters CPython allows after the first letter of a scheme. -/
def isSchemeChar (c : Char) : Bool :=
  c.isAlpha || c.isDigit || c = '+' || c = '-' || c = '.'

/-- Split a character list at the first occurrence of `sep`, returning
`none` when `sep` does not occur. -/
def splitAtFirst (sep : Char) : List Char → Option (List Char × List Char)
  | [] => none
  | c :: t =>
    if c = sep then some ([], t)
    else match splitAtFirst sep t with
      | some (a, b) => some (c :: a, b)
      | none => none

/-- CPython `urlsplit`: strip an initial `scheme:` (a letter followed by
scheme characters, lowercased), then `//netloc` up to the next `/`, `?`
or `#`, then split off the `#fragment` and `?query`. -/
def urlsplitModel (url : String) : UrlParts :=
  let cs := url.toList
  let (scheme, rest) :=
    match splitAtFirst ':' cs with
    | some (before, after) =>
      match before with
      | [] => ("", cs)
      | c0 :: more =>
        if c0.isAlpha && more.all isSchemeChar then
          (String.mk ((c0 :: more).map Char.toLower), after)
        else ("", cs)
    | none => ("", cs)
  let (netloc, rest) :=
    match rest with
    | '/' :: '/' :: t =>
      (String.mk (t.takeWhile (fun c => c ≠ '/' && c ≠ '?' && c ≠ '#')),
       t.dropWhile (fun c => c ≠ '/' && c ≠ '?' && c ≠ '#'))
    | _ => ("", rest)
  let (rest, fragment) :=
    match splitAtFirst '#' rest with
    | some (a, b) => (a, String.mk b)
    | none => (rest, "")
  let (path, query) :=
    match splitAtFirst '?' rest with
    | some (a, b) => (String.mk a, String.mk b)
    | none => (String.mk rest, "")
  { scheme := scheme, netloc := netloc, path := path, query := query, fragment := fragment }

/-- CPython `urlunsplit`. -/
def urlunsplitModel (p : UrlParts) : String :=
  let url := p.path
  let url :=
    if p.netloc ≠ "" || pyStartsWith url "//" then
      "//" ++ p.netloc ++ (if url ≠ "" && !(pyStartsWith url "/") then "/" ++ url else url)
    else url
  let url := if p.scheme ≠ "" then p.scheme ++ ":" ++ url else url
  let url := if p.query ≠ "" then url ++ "?" ++ p.query else url
  if p.fragment ≠ "" then url ++ "#" ++ p.fragment else url

/-- Python `str.split('/')`. -/
def splitSlash (s : String) : List String :=
  (go s.toList).map String.mk
where
  go : List Char → List (List Char)
    | [] => [[]]
    | c :: t =>
      if c = '/' then [] :: go t
      else match go t with
        | [] => [[c]]
        | a :: rest => (c :: a) :: rest

/-- CPython's `uses_relative` scheme list. -/
def usesRelative : List String :=
  ["", "ftp", "http", "gopher", "nntp", "imap", "wais", "file", "https", "shttp",
   "mms", "prospero", "rtsp", "rtspu", "sftp", "svn", "svn+ssh", "ws", "wss"]

/-- CPython's `uses_netloc` scheme list. -/
def usesNetloc : List String :=
  ["", "ftp", "http", "gopher", "nntp", "telnet", "imap", "wais", "file", "mms",
   "https", "shttp", "snews", "prospero", "rtsp", "rtspu", "rsync", "svn",
   "svn+ssh", "sftp", "nfs", "git", "git+ssh", "ws", "wss", "itms-services"]

/-- `segments[1:-1] = filter(None, segments[1:-1])`: drop empty strings
from everything except the first and last element. -/
def filterMiddle : List String → List String
  | [] => []
  | [x] => [x]
  | x :: y :: rest =>
    x :: ((y :: rest).dropLast.filter (fun s => s ≠ "")) ++
      [(y :: rest).getLast (List.cons_ne_nil y rest)]

/-- The `..`/`.` resolution loop of CPython `urljoin`: `..` pops the last
resolved segment (silently ignoring an empty stack), `.` is skipped,
anything else is pushed. -/
def resolveSegments : List String → List String → List String
  | acc, [] => acc
  | acc, seg :: rest =>
    if seg = ".." then resolveSegments acc.dropLast rest
    else if seg = "." then resolveSegments acc rest
    else resolveSegments (acc ++ [seg]) rest

/-- CPython `urljoin(base, url)` (no `params` component, see above). -/
def urljoin (base url : String) : String :=
  if base = "" then url
  else if url = "" then base
  else
    let b := urlsplitModel base
    let u := urlsplitModel url
    -- urlparse(url, bscheme): the base scheme is the default
    let scheme := if u.scheme = "" then b.scheme else u.scheme
    if scheme ≠ b.scheme || !(usesRelative.contains scheme) then url
    else
      let netloc :=
        if usesNetloc.contains scheme then (if u.netloc ≠ "" then u.netloc else b.netloc)
        else u.netloc
      if usesNetloc.contains scheme && u.netloc ≠ "" then
        urlunsplitModel { scheme := scheme, netloc := u.netloc, path := u.path,
                          query := u.query, fragment := u.fragment }
      else if u.path = "" then
        urlunsplitModel { scheme := scheme, netloc := netloc, path := b.path,
                          query := (if u.query = "" then b.query else u.query),
                          fragment := u.fragment }
      else
        let baseParts :=
          let bp := splitSlash b.path
          if bp.getLast? ≠ some "" then bp.dropLast else bp
        let segments :=
          if pyStartsWith u.path "/" then splitSlash u.path
          else filterMiddle (baseParts ++ splitSlash u.path)
        let resolved := resolveSegments [] segments
        let resolved :=
          if segments.getLast? = some "." || segments.getLast? = some ".." then
            resolved ++ [""]
          else resolved
        let joined := String.intercalate "/" resolved
        urlunsplitModel { scheme := scheme, netloc := netloc,
                          path := (if joined = "" then "/" else joined),
                          query := u.query, fragment := u.fragment }

/-! ## The remaining renderers -/

/-- `DownloadRenderer` (lines 121-154).  It holds a reference to the
browser and claims whenever `bool(self._browser.downloads_folder)` is
truthy; `downloads_folder` is never reassigned after construction, so the
value captured here is the one every dispatch observes.  `render_page`
derives the filename from the URL (see `download_fname`), writes the body
under the downloads folder (a filesystem effect outside this model) and
reports the absolute destination path. -/
def DownloadRenderer (C : Collaborators) (downloads_folder : Option String) :
    PageTextRenderer where
  claim_responsibility := fun _ _ _ =>
    -- bool(self._browser.downloads_folder): None and "" are falsy
    match downloads_folder with
    | some s => s ≠ ""
    | none => false
  render_page := fun _ url _ ct =>
    let fname := download_fname C (urlsplitModel url).path ct
    let download_path := C.abspath_join (downloads_folder.getD "") fname
    .ok { title := some "Download complete.",
          page_content := "Downloaded '" ++ url ++ "' to '" ++ download_path ++ "'." }

/-- `FallbackPageRenderer` (lines 157-167): claims everything and reports
an unsupported content type.  (Python would print `None` for a missing
content type in the f-string.) -/
def FallbackPageRenderer : PageTextRenderer where
  claim_responsibility := fun _ _ _ => true
  render_page := fun _ _ _ ct =>
    let t := "Error - Unsupported Content-Type '" ++ ct.getD "None" ++ "'"
    .ok { title := some t, page_content := t }

/-- `FallbackErrorRenderer` (lines 170-190): claims everything; for
`text/html` error bodies it delegates to its own `HtmlRenderer` instance
(line 172) and then overrides the title with `Error <status>` and
prepends a `## Error <status>` heading — an exception raised by the
delegate (a title-less HTML document) propagates — otherwise it emits the
heading followed by the raw body text. -/
def FallbackErrorRenderer (htmlTitleTag : String → Option (Option String))
    (htmlBodyMarkdown : String → String) : PageTextRenderer where
  claim_responsibility := fun _ _ _ => true
  render_page := fun r url status ct =>
    let isHtml :=
      match ct with
      | some c => strContainsSub (pyLower c) "text/html"
      | none => false
    if isHtml then
      match (HtmlRenderer htmlTitleTag htmlBodyMarkdown).render_page r url status ct with
      | .error e => .error e
      | .ok res =>
        .ok { title := some ("Error " ++ toString status),
              page_content := "## Error " ++ toString status ++ "\n\n" ++ res.page_content }
    else
      .ok { title := some ("Error " ++ toString status),
            page_content := "## Error " ++ toString status ++ "\n\n" ++ r.body }

/-! ## Renderer registry and dispatch (lines 282-288 and 382-387) -/

/-- `register_page_renderer` / `register_error_renderer`:
`self._page_renderers.insert(0, renderer)` — the most recently registered
renderer sits at the front of the list. -/
def registerRenderer (rs : List PageTextRenderer) (r : PageTextRenderer) :
    List PageTextRenderer :=
  r :: rs

/-- The renderer for-loop of `_fetch_page` (lines 382-387 and 398-405):
walk the list in order, and the first renderer whose
`claim_responsibility` returns true renders the page.  `.ok none` models
falling through to the "Unhandled" branch; `.error e` models the claimed
renderer's `render_page` raising, which propagates out of the loop (an
`AttributeError` is not a `RequestException`, so the surrounding `try`
does not catch it). -/
def dispatch (rs : List PageTextRenderer) (response : HttpResponse) (url : String)
    (ct : Option String) : Except PyErr (Option TextRendererResult) :=
  match rs with
  | [] => .ok none
  | r :: rest =>
    if r.claim_responsibility url response.status_code ct then
      match r.render_page response url response.status_code ct with
      | .ok res => .ok (some res)
      | .error e => .error e
    else dispatch rest response url ct

/-- Position of the renderer that claims a response (the one whose
`render_page` the loop invokes), counted from the front of the list. -/
def claimedIndex (rs : List PageTextRenderer) (url : String) (status : Nat)
    (ct : Option String) : Option Nat :=
  match rs with
  | [] => none
  | r :: rest =>
    if r.claim_responsibility url status ct then some 0
    else (claimedIndex rest url status ct).map (fun i => i + 1)

/-- The content-renderer registrations of `__init__` (lines 219-227), in
source order: Fallback, then Download, then Html, then PlainText, then —
only when PDF support is available — Pdf.  Since each registration
prepends, the resulting try-order is Pdf?, PlainText, Html, Download,
Fallback. -/
def default_page_renderers (C : Collaborators) (downloads_folder : Option String) :
    List PageTextRenderer :=
  let rs : List PageTextRenderer := []
  let rs := registerRenderer rs FallbackPageRenderer
  let rs := registerRenderer rs (DownloadRenderer C downloads_folder)
  let rs := registerRenderer rs (HtmlRenderer C.htmlTitleTag C.htmlBodyMarkdown)
  let rs := registerRenderer rs PlainTextRenderer
  if C.isPdfCapable then registerRenderer rs (PdfRenderer C.pdfExtractText) else rs

/-- The error-renderer registration of `__init__` (line 230): the
`FallbackErrorRenderer` is the sole default error renderer. -/
def default_error_renderers (C : Collaborators) : List PageTextRenderer :=
  registerRenderer [] (FallbackErrorRenderer C.htmlTitleTag C.htmlBodyMarkdown)

/-! ## Bing search result formatting (`_bing_search`, lines 339-368) -/

/-- The common snippet shape
`f"{idx}. [{name}]({url})\n{text}"` used for web results, deep links and
news results. -/
def snippetLine (idx : Nat) (name url text : String) : String :=
  toString idx ++ ". [" ++ name ++ "](" ++ url ++ ")\n" ++ text

/-- The inner deep-link loop (lines 347-352): `idx` is the number of
snippets emitted so far; each deep link increments it and is numbered
with the new value.  A missing `"snippet"` key contributes the empty
string. -/
def deepLinkSnippets (idx : Nat) : List DeepLink → List String
  | [] => []
  | dl :: rest =>
    snippetLine (idx + 1) dl.name dl.url (dl.snippet.getD "") :: deepLinkSnippets (idx + 1) rest

/-- The web-result loop (lines 344-352).  Each page consumes the next
number, then its deep links consume the following numbers, then the
remaining pages continue; since every emission increments `idx` exactly
once, the imperative counter always equals the number of snippets emitted
so far, which the recursion tracks as `idx + 1 + dls.length`. -/
def webPageSnippets (idx : Nat) : List WebPage → List String
  | [] => []
  | p :: rest =>
    let dls := p.deepLinks.getD []
    snippetLine (idx + 1) p.name p.url p.snippet ::
      (deepLinkSnippets (idx + 1) dls ++ webPageSnippets (idx + 1 + dls.length) rest)

/-- The news loop (lines 354-358), continuing the same counter. -/
def newsSnippets (idx : Nat) : List NewsPage → List String
  | [] => []
  | p :: rest =>
    snippetLine (idx + 1) p.name p.url p.description :: newsSnippets (idx + 1) rest

/-- All numbered snippets of a result set in traversal order: the web
snippets, then the news snippets starting from the final web counter
value (which equals the number of web snippets). -/
def bingAllSnippets (results : BingResults) : List String :=
  let ws := webPageSnippets 0 results.webPages
  ws ++ (match results.news with
         | none => []
         | some ns => newsSnippets ws.length ns)

/-- `_bing_search`'s title and content (lines 360-368), as a pure function
of the query and the API results: title `"<query> - Search"`, content a
header plus the web section and, when news snippets exist, a news
section. -/
def bing_search_format (query : String) (results : BingResults) : String × String :=
  let web_snippets := webPageSnippets 0 results.webPages
  let news_snippets :=
    match results.news with
    | none => []
    | some ns => newsSnippets web_snippets.length ns
  let title := query ++ " - Search"
  let content :=
    "A Bing search for '" ++ query ++ "' found " ++
      toString (web_snippets.length + news_snippets.length) ++
      " results:\n\n## Web Results\n" ++ String.intercalate "\n\n" web_snippets
  let content :=
    if news_snippets.length > 0 then
      content ++ "\n\n## News Results:\n" ++ String.intercalate "\n\n" news_snippets
    else content
  (title, content)

/-! ## Browser state machine (`SimpleTextBrowser`, lines 193-412)

Python object attributes come into existence one assignment at a time, so
every attribute is modelled as an `Option` field: `none` means the
attribute has not been assigned yet and reading it raises
`AttributeError`.  `__init__` calls `set_address` before several
attributes exist, which is exactly what claim C9 is about, so this
pre-initialisation window must be representable. -/

/-- The attribute store of a `SimpleTextBrowser` instance.  `request_kwargs`
is an opaque optional dictionary (only its presence matters to the
embedding); the renderer lists are the `_page_renderers` /
`_error_renderers` attributes. -/
structure BrowserState where
  start_page : Option String := none
  viewport_size : Option Nat := none
  downloads_folder : Option (Option String) := none
  history : Option (List String) := none
  page_title : Option (Option String) := none
  viewport_current_page : Option Nat := none
  viewport_pages : Option (List (Nat × Nat)) := none
  bing_api_key : Option (Option String) := none
  request_kwargs : Option (Option Unit) := none
  page_renderers : Option (List PageTextRenderer) := none
  error_renderers : Option (List PageTextRenderer) := none
  page_content : Option String := none

/-- Read an attribute, raising `AttributeError` when it has not been
assigned. -/
def readAttr {α : Type} (attr : String) : Option α → Except PyErr α
  | some v => .ok v
  | none => .error (.attributeError attr)

/-- The `address` property (lines 232-235): `self.history[-1]`. -/
def addressOf (st : BrowserState) : Except PyErr String := do
  let h ← readAttr "history" st.history
  match h.getLast? with
  | some a => .ok a
  | none => .error (.attributeError "history[-1] of empty history")

/-- `_split_pages` acting on the state (lines 290-310): reads the current
address, the page content and (on the paginating branch) the viewport
size, and stores the computed ranges in `viewport_pages`.  The loop is
run with fuel `content.length` (sufficient whenever `viewport_size ≥ 1`);
exhausting it surfaces as the `nonTermination` marker. -/
def splitPagesState (st : BrowserState) : Except PyErr BrowserState := do
  let addr ← addressOf st
  let content ← readAttr "_page_content" st.page_content
  if !(pyStartsWith addr "http:" || pyStartsWith addr "https:") then
    .ok { st with viewport_pages := some [(0, content.length)] }
  else if content.length = 0 then
    .ok { st with viewport_pages := some [(0, 0)] }
  else do
    let vs ← readAttr "viewport_size" st.viewport_size
    match splitPagesGo content.toList vs 0 content.toList.length with
    | some pages => .ok { st with viewport_pages := some pages }
    | none => .error .nonTermination

/-- `_set_page_content` (lines 264-269): store the content, recompute the
pagination, and clamp the current page index. -/
def set_page_content (st : BrowserState) (content : String) : Except PyErr BrowserState := do
  let st := { st with page_content := some content }
  let st ← splitPagesState st
  let vcp ← readAttr "viewport_current_page" st.viewport_current_page
  let pages ← readAttr "viewport_pages" st.viewport_pages
  if vcp ≥ pages.length then
    .ok { st with viewport_current_page := some (pages.length - 1) }
  else .ok st

/-- `_bing_search` acting on the state (lines 339-368), with
`_bing_api_call` inlined up to its attribute reads and credential check
(lines 312-318); the network exchange itself is the `bingApi`
collaborator. -/
def bingSearchState (C : Collaborators) (st : BrowserState) (query : String) :
    Except PyErr BrowserState := do
  let key ← readAttr "bing_api_key" st.bing_api_key
  match key with
  | none => .error (.valueError "Missing Bing API key.")
  | some _ => do
    let _kwargs ← readAttr "request_kwargs" st.request_kwargs
    let results := C.bingApi query
    let (title, content) := bing_search_format query results
    let st := { st with page_title := some (some title) }
    set_page_content st content

/-- The error-renderer loop of `_fetch_page`'s `except` clause
(lines 398-412).  Each iteration evaluates `response = ex.response` and
`response.headers.get(...)` before the claim check, so when the exception
carries no response the first iteration raises `AttributeError` on
`None.headers`.  When the loop falls through, the source formats an
"Unhandled" page from the loop-local `response` (unbound when the list
was empty and the response absent). -/
def errorRendererLoop (ers : List PageTextRenderer) (exResp : Option HttpResponse)
    (st : BrowserState) (url : String) : Except PyErr BrowserState :=
  match ers with
  | [] =>
    match exResp with
    | none => .error (.nameError "response")
    | some r => do
      let ct := r.contentType.getD ""
      let st := { st with page_title := some (some "Error - Unhandled _fetch_page") }
      set_page_content st
        ("Error - Unhandled _fetch_page error:\nUrl: " ++ url ++ "\nStatus code: " ++
          toString r.status_code ++ "\nContent-type: " ++ ct)
  | renderer :: rest =>
    match exResp with
    | none => .error (.attributeError "headers")
    | some r =>
      let ct := r.contentType.getD ""
      if renderer.claim_responsibility url r.status_code (some ct) then do
        let res ← renderer.render_page r url r.status_code (some ct)
        let st := { st with page_title := some res.title }
        set_page_content st res.page_content
      else errorRendererLoop rest exResp st url

/-- `_fetch_page` (lines 370-412).  The `try` block reads
`self.request_kwargs` (an `AttributeError` there is not a
`RequestException`, so it propagates), performs the fetch, and on success
dispatches over `self._page_renderers`, falling back to the "Unhandled"
page; a `RequestException` is handled by the error-renderer loop. -/
def fetchPageState (C : Collaborators) (st : BrowserState) (url : String) :
    Except PyErr BrowserState := do
  let _kwargs ← readAttr "request_kwargs" st.request_kwargs
  match C.fetch url with
  | .success response =>
    let ct := response.contentType.getD ""
    let prs ← readAttr "_page_renderers" st.page_renderers
    match dispatch prs response url (some ct) with
    | .error e => .error e
    | .ok (some res) => do
      let st := { st with page_title := some res.title }
      set_page_content st res.page_content
    | .ok none => do
      let st := { st with page_title := some (some "Error - Unhandled _fetch_page") }
      set_page_content st
        ("Error - Unhandled _fetch_page:\nUrl: " ++ url ++ "\nStatus code: " ++
          toString response.status_code ++ "\nContent-type: " ++ ct)
  | .failure exResp => do
    let ers ← readAttr "_error_renderers" st.error_renderers
    errorRendererLoop ers exResp st url

/-- `history[-1] = x` on a list known to be nonempty at the call site. -/
def setLastEntry (h : List String) (x : String) : List String :=
  h.dropLast ++ [x]

/-- `set_address` (lines 237-251).  The address is appended to the history
first; `about:blank` and the `bing:` scheme are handled specially; any
other address that does not start with `http:`/`https:` is joined against
`self.address` — which, after the append, is the just-appended argument
itself — and the history entry is overwritten with the join result before
fetching.  The viewport page index is reset only when no exception
escaped. -/
def set_address (C : Collaborators) (st : BrowserState) (uri_or_path : String) :
    Except PyErr BrowserState := do
  let h ← readAttr "history" st.history
  let st := { st with history := some (h ++ [uri_or_path]) }
  let st ←
    if uri_or_path = "about:blank" then
      set_page_content st ""
    else if pyStartsWith uri_or_path "bing:" then
      bingSearchState C st (pyStrip (pyDropChars uri_or_path "bing:".length))
    else do
      let (st, uri_or_path) ←
        if !(pyStartsWith uri_or_path "http:") && !(pyStartsWith uri_or_path "https:") then do
          let addr ← addressOf st
          let joined := urljoin addr uri_or_path
          let h ← readAttr "history" st.history
          pure ({ st with history := some (setLastEntry h joined) }, joined)
        else pure (st, uri_or_path)
      fetchPageState C st uri_or_path
  .ok { st with viewport_current_page := some 0 }

set_option maxHeartbeats 1000000 in
/-- `__init__` (lines 196-230), translated assignment by assignment: the
early attribute assignments, the `set_address(start_page)` call, the late
assignments (`bing_api_key`, `request_kwargs`, the renderer lists,
`_page_content = ""`), and the renderer registrations (each of which
reads the corresponding list attribute and prepends). -/
def browserInit (C : Collaborators) (start_page : String) (viewport_size : Nat)
    (downloads_folder : Option String) (bing_api_key : Option String)
    (request_kwargs : Option Unit) : Except PyErr BrowserState := do
  let st : BrowserState := {}
  let st := { st with start_page := some start_page }
  let st := { st with viewport_size := some viewport_size }
  let st := { st with downloads_folder := some downloads_folder }
  let st := { st with history := some [] }
  let st := { st with page_title := some none }
  let st := { st with viewport_current_page := some 0 }
  let st := { st with viewport_pages := some [] }
  let st ← set_address C st start_page
  let st := { st with bing_api_key := some bing_api_key }
  let st := { st with request_kwargs := some request_kwargs }
  let st := { st with page_renderers := some [] }
  let st := { st with error_renderers := some [] }
  let st := { st with page_content := some "" }
  let prs ← readAttr "_page_renderers" st.page_renderers
  let st := { st with page_renderers := some (registerRenderer prs FallbackPageRenderer) }
  let prs ← readAttr "_page_renderers" st.page_renderers
  let dlr := DownloadRenderer C downloads_folder
  let st := { st with page_renderers := some (registerRenderer prs dlr) }
  let prs ← readAttr "_page_renderers" st.page_renderers
  let htmlr := HtmlRenderer C.htmlTitleTag C.htmlBodyMarkdown
  let st := { st with page_renderers := some (registerRenderer prs htmlr) }
  let prs ← readAttr "_page_renderers" st.page_renderers
  let st := { st with page_renderers := some (registerRenderer prs PlainTextRenderer) }
  let st ←
    if C.isPdfCapable then do
      let prs ← readAttr "_page_renderers" st.page_renderers
      let pdfr := PdfRenderer C.pdfExtractText
      pure { st with page_renderers := some (registerRenderer prs pdfr) }
    else pure st
  let ers ← readAttr "_error_renderers" st.error_renderers
  let fer := FallbackErrorRenderer C.htmlTitleTag C.htmlBodyMarkdown
  .ok { st with error_renderers := some (registerRenderer ers fer) }

/-! ## Specification predicates and concrete instantiations -/

/-- The ranges `rs` form an ordered, gapless, overlap-free partition of
`[a, content.length)`: the first range starts at `a`, each range starts
where the previous one ended and is nonempty, the final range ends at
`content.length`, and every internal boundary `e` (the end of a non-final
range) has a whitespace character at content index `e - 1`. -/
def PartitionFrom (content : List Char) : List (Nat × Nat) → Nat → Prop
  | [], a => a = content.length
  | (s, e) :: rest, a =>
    s = a ∧ s < e ∧
    (rest ≠ [] → isViewportWs (content.getD (e - 1) ' ') = true) ∧
    PartitionFrom content rest e

/-- A concrete collaborator assignment used by the closed instantiations
below.  Each field is consistent with the library it stands in for:
`sanitize_filename` is the identity (true of `pathvalidate` on the names
these instantiations feed it, in particular on `""`), `guess_extension`
knows only `text/plain`, and the transport always answers with a small
`text/plain` success. -/
def egCollab : Collaborators where
  htmlTitleTag := fun body =>
    if strContainsSub body "<title>" then some (some "T") else none
  htmlBodyMarkdown := fun body => body
  pdfExtractText := fun b => b
  isPdfCapable := false
  pathvalidateAvailable := true
  sanitize_filename := fun s => s
  guess_extension := fun ct => if ct = some "text/plain" then some ".txt" else none
  newUuid := "123e4567-e89b-12d3-a456-426614174000"
  abspath_join := fun folder fname => folder ++ "/" ++ fname
  fetch := fun _ =>
    .success { status_code := 200, contentType := some "text/plain", body := "hi" }
  bingApi := fun _ => { webPages := [], news := none }

/-- Like `egCollab`, but every fetch fails with a pure transport failure
carrying no response (e.g. a DNS failure). -/
def failCollab : Collaborators :=
  { egCollab with fetch := fun _ => .failure none }

/-- The result set of spec scenario 9: two web results, the first carrying
one deep link, no news. -/
def egBingResults : BingResults where
  webPages :=
    [{ name := "A", url := "http://a", snippet := "first",
       deepLinks := some [{ name := "A deep", url := "http://a/d", snippet := none }] },
     { name := "B", url := "http://b", snippet := "second", deepLinks := none }]
  news := none

/-! ## Theorems

First the pagination loop (claims C2 and C10): helper lemmas about the
inner whitespace-extension loop, then the invariant of the outer loop. -/

theorem extendEndGo_ge (content : List Char) :
    ∀ (k e : Nat), e ≤ extendEndGo content k e := by
  intro k
  induction k with
  | zero => intro e; simp [extendEndGo]
  | succ k ih =>
    intro e
    simp only [extendEndGo]
    split
    · exact le_trans (Nat.le_succ e) (ih (e + 1))
    · exact le_refl e

theorem extendEndGo_le (content : List Char) :
    ∀ (k e : Nat), e ≤ content.length → extendEndGo content k e ≤ content.length := by
  intro k
  induction k with
  | zero => intro e he; simpa [extendEndGo] using he
  | succ k ih =>
    intro e he
    simp only [extendEndGo]
    split
    · next h =>
      have : e < content.length := by
        have := h
        simp only [Bool.and_eq_true, decide_eq_true_eq] at this
        exact this.1
      exact ih (e + 1) this
    · exact he

theorem extendEndGo_exit (content : List Char) :
    ∀ (k e : Nat), e ≤ content.length → content.length - e ≤ k →
      extendEndGo content k e = content.length ∨
        isViewportWs (pyCharAt content ((extendEndGo content k e : Int) - 1)) = true := by
  intro k
  induction k with
  | zero =>
    intro e he hk
    left
    simp only [extendEndGo]
    omega
  | succ k ih =>
    intro e he hk
    simp only [extendEndGo]
    split
    · next h =>
      have h' := h
      simp only [Bool.and_eq_true, decide_eq_true_eq, Bool.not_eq_eq_eq_not,
        Bool.not_true] at h'
      exact ih (e + 1) h'.1 (by omega)
    · next h =>
      simp only [Bool.and_eq_true, decide_eq_true_eq, Bool.not_eq_eq_eq_not,
        Bool.not_true, not_and] at h
      by_cases hlt : e < content.length
      · right
        have := h hlt
        simpa using this
      · left; omega

theorem extendEnd_ge (content : List Char) (e : Nat) : e ≤ extendEnd content e :=
  extendEndGo_ge content _ e

theorem extendEnd_le (content : List Char) (e : Nat) (he : e ≤ content.length) :
    extendEnd content e ≤ content.length :=
  extendEndGo_le content _ e he

theorem extendEnd_exit (content : List Char) (e : Nat) (he : e ≤ content.length) :
    extendEnd content e = content.length ∨
      isViewportWs (pyCharAt content ((extendEnd content e : Int) - 1)) = true :=
  extendEndGo_exit content _ e he (le_refl _)

theorem pyCharAt_pos (content : List Char) (r : Nat) (hr : 1 ≤ r) :
    pyCharAt content ((r : Int) - 1) = content.getD (r - 1) ' ' := by
  have h1 : ((r : Int) - 1) = ((r - 1 : Nat) : Int) := by omega
  rw [h1]
  simp [pyCharAt]

/-- Every partition list covers up to the length of the content. -/
theorem PartitionFrom.start_le (content : List Char) :
    ∀ (rs : List (Nat × Nat)) (a : Nat), PartitionFrom content rs a → a ≤ content.length := by
  intro rs
  induction rs with
  | nil => intro a h; exact le_of_eq h
  | cons p rest ih =>
    intro a h
    obtain ⟨s, e⟩ := p
    obtain ⟨hs, hse, _, hrest⟩ := h
    have := ih e hrest
    omega

/-- Main invariant of the outer pagination loop: with `viewport_size ≥ 1`
and enough fuel, the loop finishes and its output partitions
`[start, content.length)` with whitespace at every internal boundary. -/
theorem splitPagesGo_spec (content : List Char) (vs : Nat) (hvs : 1 ≤ vs) :
    ∀ (fuel start : Nat), start ≤ content.length → content.length - start ≤ fuel →
      ∃ rs, splitPagesGo content vs start fuel = some rs ∧ PartitionFrom content rs start := by
  intro fuel
  induction fuel with
  | zero =>
    intro start hle hfuel
    have hstart : start = content.length := by omega
    refine ⟨[], ?_, hstart⟩
    simp [splitPagesGo, hstart]
  | succ fuel ih =>
    intro start hle hfuel
    by_cases hs : start < content.length
    · have hmin_lb : start + 1 ≤ min (start + vs) content.length := by omega
      have hmin_ub : min (start + vs) content.length ≤ content.length := by omega
      set e := extendEnd content (min (start + vs) content.length) with he_def
      have he_lb : start + 1 ≤ e := le_trans hmin_lb (extendEnd_ge content _)
      have he_ub : e ≤ content.length := extendEnd_le content _ hmin_ub
      obtain ⟨rest, hrest_eq, hrest_part⟩ := ih e he_ub (by omega)
      refine ⟨(start, e) :: rest, ?_, ?_⟩
      · simp only [splitPagesGo, if_pos hs, ← he_def, hrest_eq]
      · refine ⟨rfl, by omega, ?_, hrest_part⟩
        intro hne
        cases rest with
        | nil => exact absurd rfl hne
        | cons p rest' =>
          obtain ⟨s', e'⟩ := p
          obtain ⟨hs', hse', -, hrest'⟩ := hrest_part
          have he'le : e' ≤ content.length := PartitionFrom.start_le content _ _ hrest'
          have helt : e < content.length := by omega
          have hx := extendEnd_exit content (min (start + vs) content.length) hmin_ub
          rw [← he_def] at hx
          rcases hx with h | h
          · omega
          · rwa [pyCharAt_pos content e (by omega)] at h
    · have hstart : start = content.length := by omega
      refine ⟨[], ?_, hstart⟩
      simp [splitPagesGo, hstart]

/-- Claim C2: for every content string and every `viewportSize ≥ 1`, when
the current address starts with `http:` or `https:`, the ranges computed
by `_split_pages` form an ordered partition of `[0, content.length)` with
no gaps or overlaps — the first start is 0, each start equals the
previous end, the last end is the content length — and every range except
the last ends just after a whitespace character (the character at index
`end - 1` is a space, tab, carriage return or newline); empty content
yields exactly one zero-length page. -/
theorem split_pages_partition (address : String) (content : List Char) (vs : Nat)
    (haddr : (pyStartsWith address "http:" || pyStartsWith address "https:") = true)
    (hvs : 1 ≤ vs) :
    ∃ rs, split_pages address content vs = some rs ∧
      (content.length = 0 → rs = [(0, 0)]) ∧
      (content.length ≠ 0 → PartitionFrom content rs 0) := by
  unfold split_pages
  rw [haddr]
  by_cases hlen : content.length = 0
  · refine ⟨[(0, 0)], ?_, fun _ => rfl, fun h => absurd hlen h⟩
    simp [hlen]
  · obtain ⟨rs, heq, hpart⟩ :=
      splitPagesGo_spec content vs hvs content.length 0 (Nat.zero_le _) (le_refl _)
    refine ⟨rs, ?_, fun h => absurd h hlen, fun _ => hpart⟩
    simp [hlen, heq]

/-- Witness for C2 at the spec's own scenario: viewport size 10 over
`"abcdefghij klmnop"` on an HTTP address. -/
theorem split_pages_partition_witness :
    (pyStartsWith "http://x" "http:" || pyStartsWith "http://x" "https:") = true ∧
    1 ≤ 10 ∧
    (∃ rs, split_pages "http://x" "abcdefghij klmnop".toList 10 = some rs ∧
      ("abcdefghij klmnop".toList.length = 0 → rs = [(0, 0)]) ∧
      ("abcdefghij klmnop".toList.length ≠ 0 →
        PartitionFrom "abcdefghij klmnop".toList rs 0)) :=
  ⟨by decide, by decide,
    split_pages_partition "http://x" "abcdefghij klmnop".toList 10 (by decide) (by decide)⟩

/-- When the extension step makes no progress (the extended end equals the
current start, which requires `viewport_size = 0` and a whitespace
character before the start position), the pagination loop never finishes,
whatever its fuel. -/
theorem splitPagesGo_stuck (content : List Char) (vs start : Nat)
    (hs : start < content.length)
    (hext : extendEnd content (min (start + vs) content.length) = start) :
    ∀ fuel, splitPagesGo content vs start fuel = none := by
  intro fuel
  induction fuel with
  | zero => simp [splitPagesGo, hs]
  | succ fuel ih => simp [splitPagesGo, hs, hext, ih]

/-- Claim C10: with `viewport_size ≥ 1` the pagination loop terminates
(fuel equal to the content length always suffices, because every emitted
page is nonempty so `start_idx` strictly increases); without that
precondition the loop can fail to make progress — with `viewport_size = 0`
on content `"a "` it never finishes no matter how much fuel it is given. -/
theorem split_pages_termination :
    (∀ (content : List Char) (vs : Nat), 1 ≤ vs →
      (splitPagesGo content vs 0 content.length).isSome = true) ∧
    (∀ fuel, splitPagesGo ['a', ' '] 0 0 fuel = none) := by
  constructor
  · intro content vs hvs
    obtain ⟨rs, heq, -⟩ :=
      splitPagesGo_spec content vs hvs content.length 0 (Nat.zero_le _) (le_refl _)
    simp [heq]
  · intro fuel
    exact splitPagesGo_stuck ['a', ' '] 0 0 (by decide) (by decide) fuel

/-- Witness for C10's universally quantified half at a concrete input. -/
theorem split_pages_termination_witness :
    1 ≤ 3 ∧ (splitPagesGo ['h', 'i'] 3 0 ['h', 'i'].length).isSome = true :=
  ⟨by decide, split_pages_termination.1 ['h', 'i'] 3 (by decide)⟩

/-! ## Error-renderer dispatch (claim C3) -/

/-- Counterexample to C3 as stated: error dispatch can throw.  For a
`text/html` error body with no `<title>` element (here a 500 whose body
is `<h1>Server Error</h1>`, on which the parsed `soup.title` is `None` —
`egCollab.htmlTitleTag` returns `none` for it), the delegated
`HtmlRenderer.render_page` raises `AttributeError` at `soup.title.string`
(line 103) and dispatching over the error-renderer list propagates that
exception instead of returning a `RenderResult`. -/
theorem dispatch_error_throws_on_titleless_html :
    egCollab.htmlTitleTag "<h1>Server Error</h1>" = none ∧
    dispatch (default_error_renderers egCollab)
        { status_code := 500, contentType := some "text/html",
          body := "<h1>Server Error</h1>" }
        "http://err.example/" (some "text/html") =
      .error (.attributeError "string") := by
  constructor
  · decide
  · rfl

/-- Claim C3 as amended: dispatching an HTTP error over the error-renderer
list returns a `RenderResult` titled exactly `Error <statusCode>` — with
the `## Error <statusCode>` heading prepended to the HTML-rendered body
for `text/html` content types and to the raw decoded body otherwise —
except in one case: a `text/html` error body whose parsed document has no
`<title>` element, where the delegated HTML renderer's
`soup.title.string` raises `AttributeError` and the dispatch throws
instead of returning a result. -/
theorem dispatch_error_title_and_heading (C : Collaborators) (resp : HttpResponse)
    (url : String) (ct : Option String) :
    dispatch (default_error_renderers C) resp url ct =
      (if (match ct with
           | some c => strContainsSub (pyLower c) "text/html"
           | none => false) then
         match C.htmlTitleTag resp.body with
         | none => .error (.attributeError "string")
         | some _ =>
           .ok (some { title := some ("Error " ++ toString resp.status_code),
                       page_content := "## Error " ++ toString resp.status_code ++ "\n\n" ++
                         C.htmlBodyMarkdown resp.body })
       else
         .ok (some { title := some ("Error " ++ toString resp.status_code),
                     page_content := "## Error " ++ toString resp.status_code ++ "\n\n" ++
                       resp.body })) := by
  have hd : dispatch (default_error_renderers C) resp url ct =
      Except.map some ((FallbackErrorRenderer C.htmlTitleTag C.htmlBodyMarkdown).render_page
        resp url resp.status_code ct) := by
    show (match (FallbackErrorRenderer C.htmlTitleTag C.htmlBodyMarkdown).render_page
        resp url resp.status_code ct with
      | .ok res => Except.ok (some res)
      | .error e => Except.error e) = _
    cases (FallbackErrorRenderer C.htmlTitleTag C.htmlBodyMarkdown).render_page
        resp url resp.status_code ct <;> rfl
  rw [hd]
  simp only [FallbackErrorRenderer, HtmlRenderer]
  split
  · cases C.htmlTitleTag resp.body with
    | none => rfl
    | some t => rfl
  · rfl

/-! ## LIFO registration (claim C4) -/

/-- Claim C4: if renderers `A` and `B` both claim a response and `A` is
registered before `B`, dispatch invokes `B` — the later-registered
renderer — and returns its result without consulting `A`: registration is
LIFO and dispatch stops at the first claiming renderer in
most-recently-registered-first order. -/
theorem register_lifo_dispatch (A B : PageTextRenderer) (others : List PageTextRenderer)
    (resp : HttpResponse) (url : String) (ct : Option String)
    (hA : A.claim_responsibility url resp.status_code ct = true)
    (hB : B.claim_responsibility url resp.status_code ct = true) :
    dispatch (registerRenderer (registerRenderer others A) B) resp url ct =
      (B.render_page resp url resp.status_code ct).map some := by
  cases h : B.render_page resp url resp.status_code ct with
  | ok res => simp [registerRenderer, dispatch, hB, h, Except.map]
  | error e => simp [registerRenderer, dispatch, hB, h, Except.map]

/-- Witness for C4 with two source renderers that both claim a
`text/plain` response: `PlainTextRenderer` registered first, then the
catch-all `FallbackPageRenderer`; the later registration wins. -/
theorem register_lifo_dispatch_witness :
    PlainTextRenderer.claim_responsibility "http://x" 200 (some "text/plain") = true ∧
    FallbackPageRenderer.claim_responsibility "http://x" 200 (some "text/plain") = true ∧
    dispatch (registerRenderer (registerRenderer [] PlainTextRenderer) FallbackPageRenderer)
        { status_code := 200, contentType := some "text/plain", body := "hello" }
        "http://x" (some "text/plain") =
      (FallbackPageRenderer.render_page
        { status_code := 200, contentType := some "text/plain", body := "hello" }
        "http://x" 200 (some "text/plain")).map some :=
  ⟨by decide, by decide,
    register_lifo_dispatch PlainTextRenderer FallbackPageRenderer []
      { status_code := 200, contentType := some "text/plain", body := "hello" }
      "http://x" (some "text/plain") (by decide) (by decide)⟩

/-! ## Download renderer priority (claim C5)

In `__init__` the Download renderer is registered second (right after the
catch-all), so PlainText, Html and — when available — Pdf all sit in
front of it in the try-order: with a downloads folder configured, a
`text/plain` response is still rendered by `PlainTextRenderer`, not
downloaded.  The claim is therefore refuted and corrected to: the
Download renderer handles exactly the successful responses that none of
the more recently registered content-type renderers claim. -/

/-- Counterexample to C5 as stated: downloads folder configured, response
content type `text/plain` — the claiming renderer is the one at position
0 of the default list (`PlainTextRenderer`; `DownloadRenderer` sits at
position 2 of `default_page_renderers egCollab (some "/downloads")`,
whose `isPdfCapable` is false), and the dispatched result is the
PlainText rendering (no title, raw body), not the Download renderer's
`Download complete.` result. -/
theorem download_renderer_not_universal :
    claimedIndex (default_page_renderers egCollab (some "/downloads"))
        "http://x/y.txt" 200 (some "text/plain") = some 0 ∧
    dispatch (default_page_renderers egCollab (some "/downloads"))
        { status_code := 200, contentType := some "text/plain", body := "hello" }
        "http://x/y.txt" (some "text/plain") =
      .ok (some { title := none, page_content := "hello" }) ∧
    (none : Option String) ≠ some "Download complete." := by
  refine ⟨?_, ?_, by decide⟩
  · decide
  · rfl

/-- Claim C5 as amended: when a downloads folder (a nonempty path) is
configured, a successfully fetched resource is handled by the Download
renderer *exactly when* neither `PlainTextRenderer` nor `HtmlRenderer`
claims it and — only when PDF support is present — `PdfRenderer` does not
claim it either.  The first conjunct is that biconditional, stated via
the position of the claiming renderer (the Download renderer sits at
position 3 of the default list with PDF support and at position 2
without); the second proves that in exactly those circumstances dispatch
returns the Download renderer's own rendering; the third spells that
rendering out: the `Download complete.` page reporting the file written
under the configured directory. -/
theorem download_renderer_claims_residual (C : Collaborators) (folder : String)
    (resp : HttpResponse) (url : String) (ct : Option String)
    (hf : folder ≠ "") :
    (claimedIndex (default_page_renderers C (some folder)) url resp.status_code ct =
        some (if C.isPdfCapable then 3 else 2) ↔
      PlainTextRenderer.claim_responsibility url resp.status_code ct = false ∧
      (HtmlRenderer C.htmlTitleTag C.htmlBodyMarkdown).claim_responsibility url
          resp.status_code ct = false ∧
      (C.isPdfCapable = true →
        (PdfRenderer C.pdfExtractText).claim_responsibility url resp.status_code ct =
          false)) ∧
    (PlainTextRenderer.claim_responsibility url resp.status_code ct = false →
      (HtmlRenderer C.htmlTitleTag C.htmlBodyMarkdown).claim_responsibility url
          resp.status_code ct = false →
      (C.isPdfCapable = true →
        (PdfRenderer C.pdfExtractText).claim_responsibility url resp.status_code ct =
          false) →
      dispatch (default_page_renderers C (some folder)) resp url ct =
        ((DownloadRenderer C (some folder)).render_page resp url
          resp.status_code ct).map some) ∧
    (DownloadRenderer C (some folder)).render_page resp url resp.status_code ct =
      .ok { title := some "Download complete.",
            page_content := "Downloaded '" ++ url ++ "' to '" ++
              C.abspath_join folder (download_fname C (urlsplitModel url).path ct) ++
              "'." } := by
  have hdl : (DownloadRenderer C (some folder)).claim_responsibility url
      resp.status_code ct = true := by
    simp [DownloadRenderer, hf]
  refine ⟨?_, ?_, rfl⟩
  · cases hcap : C.isPdfCapable with
    | false =>
      cases hpt : PlainTextRenderer.claim_responsibility url resp.status_code ct <;>
        cases hh : (HtmlRenderer C.htmlTitleTag C.htmlBodyMarkdown).claim_responsibility
          url resp.status_code ct <;>
        simp [default_page_renderers, registerRenderer, claimedIndex, hcap, hdl, hpt, hh]
    | true =>
      cases hpdf : (PdfRenderer C.pdfExtractText).claim_responsibility url
          resp.status_code ct <;>
        cases hpt : PlainTextRenderer.claim_responsibility url resp.status_code ct <;>
        cases hh : (HtmlRenderer C.htmlTitleTag C.htmlBodyMarkdown).claim_responsibility
          url resp.status_code ct <;>
        simp [default_page_renderers, registerRenderer, claimedIndex, hcap, hdl, hpt, hh,
          hpdf]
  · intro hpt hh hpdf
    have hrend : (DownloadRenderer C (some folder)).render_page resp url
        resp.status_code ct =
        .ok { title := some "Download complete.",
              page_content := "Downloaded '" ++ url ++ "' to '" ++
                C.abspath_join folder (download_fname C (urlsplitModel url).path ct) ++
                "'." } := rfl
    cases hcap : C.isPdfCapable with
    | false =>
      simp [default_page_renderers, registerRenderer, dispatch, hcap, hpt, hh, hdl, hrend,
        Except.map]
    | true =>
      simp [default_page_renderers, registerRenderer, dispatch, hcap, hpt, hh,
        hpdf hcap, hdl, hrend, Except.map]

/-- Witness for the amended C5 at a content type none of the specific
renderers claims (`image/png`): the claiming position is the Download
renderer's, and dispatch returns its rendering. -/
theorem download_renderer_claims_residual_witness :
    ("/downloads" : String) ≠ "" ∧
    claimedIndex (default_page_renderers egCollab (some "/downloads"))
        "http://x/p.png" 200 (some "image/png") = some 2 ∧
    dispatch (default_page_renderers egCollab (some "/downloads"))
        { status_code := 200, contentType := some "image/png", body := "PNG" }
        "http://x/p.png" (some "image/png") =
      ((DownloadRenderer egCollab (some "/downloads")).render_page
        { status_code := 200, contentType := some "image/png", body := "PNG" }
        "http://x/p.png" 200 (some "image/png")).map some :=
  ⟨by decide,
    by
      have h := (download_renderer_claims_residual egCollab "/downloads"
        { status_code := 200, contentType := some "image/png", body := "PNG" }
        "http://x/p.png" (some "image/png") (by decide)).1.mpr
        ⟨by decide, by decide, fun hcap => by decide⟩
      simpa using h,
    (download_renderer_claims_residual egCollab "/downloads"
      { status_code := 200, contentType := some "image/png", body := "PNG" }
      "http://x/p.png" (some "image/png") (by decide)).2.1
      (by decide) (by decide) (fun hcap => by decide)⟩

/-! ## Transport failure without a response (claim C6)

The `except` clause of `_fetch_page` evaluates `response = ex.response`
and then `response.headers.get(...)` inside the renderer loop before any
claim check.  With the default (nonempty) error-renderer list and
`ex.response = None` this dereferences `None.headers`, so the caller
receives an `AttributeError` — an exception does propagate and no error
page is rendered, but it is not the original transport exception. -/

/-- Counterexample to C6 as stated: construct the browser, then navigate
to an HTTP URL whose fetch fails with a pure transport failure carrying
no response.  The call raises `AttributeError` (from `None.headers` in
the error loop), which is a different exception from the original
`RequestException` — the failure is not propagated as-is. -/
theorem transport_failure_not_propagated_as_is :
    (do
      let st ← browserInit failCollab "about:blank" (8 * 1024) none none none
      set_address failCollab st "http://down.example/") =
      Except.error (PyErr.attributeError "headers") ∧
    PyErr.attributeError "headers" ≠ PyErr.requestException none := by
  constructor
  · rfl
  · decide

/-- Claim C6 as amended: a fetch failure that carries no response object
still aborts `navigate` with an exception and produces no rendered error
page, but the exception that reaches the caller is the `AttributeError`
raised by dereferencing the absent response inside the error-renderer
loop, not the original transport failure. -/
theorem transport_failure_raises_attribute_error (C : Collaborators) (st : BrowserState)
    (rk : Option Unit) (url : String)
    (hrk : st.request_kwargs = some rk)
    (hers : st.error_renderers = some (default_error_renderers C))
    (hfetch : C.fetch url = .failure none) :
    fetchPageState C st url = .error (.attributeError "headers") := by
  simp only [fetchPageState, readAttr, hrk, hers, hfetch, default_error_renderers,
    registerRenderer]
  rfl

/-- Witness for the amended C6 on a concrete post-construction state. -/
theorem transport_failure_raises_attribute_error_witness :
    ∃ st, browserInit failCollab "about:blank" (8 * 1024) none none none = .ok st ∧
      st.request_kwargs = some none ∧
      st.error_renderers = some (default_error_renderers failCollab) ∧
      failCollab.fetch "http://down.example/" = .failure none ∧
      fetchPageState failCollab st "http://down.example/" =
        .error (.attributeError "headers") :=
  ⟨_, rfl, rfl, rfl, rfl,
    transport_failure_raises_attribute_error failCollab _ none "http://down.example/"
      rfl rfl rfl⟩

/-! ## Download filename fallback (claim C8)

Lines 132-143 catch only `NameError` (the `pathvalidate` import having
failed); the generated unique name is used only when `fname` is still
`None`, i.e. only in that case.  When sanitisation runs and produces the
empty string (e.g. a URL whose path ends in `/`), the empty string is
*not* `None`, so no fallback occurs and the empty name flows into the
file open. -/

/-- Counterexample to C8 as stated: for the URL `https://a.com/` the path
basename is empty, sanitisation yields the empty string — no usable
name — yet the renderer does not fall back to the generated unique
filename: the chosen name is `""`, not the UUID-plus-extension form. -/
theorem download_fname_empty_no_fallback :
    download_fname egCollab (urlsplitModel "https://a.com/").path (some "text/plain") = "" ∧
    egCollab.newUuid ++ ((egCollab.guess_extension (some "text/plain")).getD ".download") =
      "123e4567-e89b-12d3-a456-426614174000.txt" ∧
    ("" : String) ≠ "123e4567-e89b-12d3-a456-426614174000.txt" := by
  refine ⟨?_, ?_, by decide⟩
  · rfl
  · rfl

/-- Claim C8 as amended: the generated unique filename (UUID plus an
extension guessed from the content type, defaulting to `.download`) is
used exactly when the sanitisation capability is absent (`pathvalidate`
never imported, so the `try` block raises `NameError`), and it is then
never empty; when sanitisation is available its stripped result is used
as the filename verbatim — even when that result is the empty string. -/
theorem download_fname_fallback_only_when_unavailable (C : Collaborators)
    (urlPath : String) (ct : Option String) :
    (C.pathvalidateAvailable = false →
      download_fname C urlPath ct =
        C.newUuid ++ ((C.guess_extension ct).getD ".download") ∧
      (C.newUuid ≠ "" → download_fname C urlPath ct ≠ "")) ∧
    (C.pathvalidateAvailable = true →
      download_fname C urlPath ct = pyStrip (C.sanitize_filename (pyBasename urlPath))) := by
  constructor
  · intro hpv
    have heq : download_fname C urlPath ct =
        C.newUuid ++ ((C.guess_extension ct).getD ".download") := by
      simp [download_fname, hpv]
    refine ⟨heq, fun hne => ?_⟩
    rw [heq]
    intro hc
    apply hne
    cases hu : C.newUuid with | mk l =>
    cases hx : (C.guess_extension ct).getD ".download" with | mk m =>
    rw [hu, hx] at hc
    have : l ++ m = [] := congrArg String.data hc
    have hl : l = [] := (List.append_eq_nil.mp this).1
    rw [hl]
  · intro hpv
    simp [download_fname, hpv]

/-- Witness for the amended C8: with `pathvalidate` missing the name is
the UUID with the guessed extension, and with it present the sanitised
basename is used. -/
theorem download_fname_fallback_witness :
    ({ egCollab with pathvalidateAvailable := false } : Collaborators).pathvalidateAvailable
      = false ∧
    download_fname { egCollab with pathvalidateAvailable := false }
        (urlsplitModel "https://a.com/doc.pdf").path (some "application/zip") =
      egCollab.newUuid ++ ".download" :=
  ⟨rfl,
    ((download_fname_fallback_only_when_unavailable
        { egCollab with pathvalidateAvailable := false }
        (urlsplitModel "https://a.com/doc.pdf").path (some "application/zip")).1 rfl).1⟩

/-! ## Relative address resolution (claim C1)

`set_address` appends the navigation argument to the history *before*
resolving it, and then resolves it against `self.address` — which is the
just-appended argument itself, not the previous current address.  From
current address `https://a.com/dir/page`, navigating to `../x` therefore
stores `urljoin("../x", "../x") = "x"`, a bare relative path, instead of
`https://a.com/x`: the claim is right about the intent (the source's own
comment says the entry is updated "with the fully-qualified path") and
the code is wrong. -/

/-- Evaluation of the code at claim C1's failing input: browse to
`https://a.com/dir/page`, then navigate to `../x` (with a transport that
answers every URL with a small `text/plain` success, so the navigation
itself completes).  The last history entry afterwards is `"x"` — the
argument joined against itself — which is a bare relative path, not the
absolute URL `https://a.com/x` the claim requires. -/
theorem set_address_relative_resolution_bug :
    ∃ st, (do
        let st0 ← browserInit egCollab "about:blank" (8 * 1024) none none none
        let st1 ← set_address egCollab st0 "https://a.com/dir/page"
        set_address egCollab st1 "../x") = Except.ok st ∧
      st.history = some ["about:blank", "https://a.com/dir/page", "x"] ∧
      urljoin "../x" "../x" = "x" ∧
      pyStartsWith "x" "http:" = false ∧
      pyStartsWith "x" "https:" = false ∧
      ("x" : String) ≠ "https://a.com/x" :=
  ⟨_, rfl, rfl, rfl, rfl, rfl, by decide⟩

/-! ## Constructor attribute order (claim C9) -/

/-- Monad-bind reduction for `Except.ok`, used to unfold the do-notation
in the state-machine proofs. -/
theorem except_bind_ok {ε α β : Type} (a : α) (f : α → Except ε β) :
    (Except.ok a >>= f) = f a := rfl

/-- Monad-bind reduction for `Except.error`. -/
theorem except_bind_error {ε α β : Type} (e : ε) (f : α → Except ε β) :
    (Except.error e >>= f : Except ε β) = Except.error e := rfl

/-- In any state whose `bing_api_key` and `request_kwargs` attributes do
not exist yet (as during `__init__`'s `set_address(start_page)` call),
`set_address` on anything other than `about:blank` raises
`AttributeError`: the `bing:` branch reads `self.bing_api_key` inside
`_bing_api_call`, and every other branch reaches `_fetch_page`, which
reads `self.request_kwargs`. -/
theorem set_address_preinit_raises (C : Collaborators) (st : BrowserState)
    (h : List String) (sp : String)
    (hhist : st.history = some h)
    (hbk : st.bing_api_key = none)
    (hrk : st.request_kwargs = none)
    (hsp : sp ≠ "about:blank") :
    ∃ attr, set_address C st sp = .error (.attributeError attr) := by
  by_cases hbing : pyStartsWith sp "bing:" = true
  · refine ⟨"bing_api_key", ?_⟩
    simp [set_address, readAttr, hhist, hsp, hbing, bingSearchState, hbk,
      except_bind_ok, except_bind_error]
  · by_cases hrel : (!(pyStartsWith sp "http:") && !(pyStartsWith sp "https:")) = true
    · refine ⟨"request_kwargs", ?_⟩
      simp [set_address, readAttr, hhist, hsp, hbing, hrel, addressOf, fetchPageState, hrk,
        except_bind_ok, except_bind_error]
    · refine ⟨"request_kwargs", ?_⟩
      simp [set_address, readAttr, hhist, hsp, hbing, hrel, fetchPageState, hrk,
        except_bind_ok, except_bind_error]

/-- Claim C9: constructing `SimpleTextBrowser` succeeds only for the
default start page `about:blank` (and then `_page_content` ends up
`""`); for every other start page — absolute HTTP(S) URL, search-scheme
address or relative path — `__init__` raises `AttributeError`, because
`set_address(start_page)` runs before `bing_api_key` and
`request_kwargs` are assigned and the triggered navigation reads one of
those attributes. -/
theorem init_succeeds_only_about_blank (C : Collaborators) (vs : Nat)
    (df bk : Option String) (rk : Option Unit) :
    (∃ st, browserInit C "about:blank" vs df bk rk = .ok st ∧
       st.page_content = some "") ∧
    (∀ sp, sp ≠ "about:blank" →
       ∃ attr, browserInit C sp vs df bk rk = .error (.attributeError attr)) := by
  constructor
  · obtain ⟨ht, hb, pe, pdf, pva, sf, ge, uu, aj, f, ba⟩ := C
    cases pdf <;> exact ⟨_, rfl, rfl⟩
  · intro sp hsp
    obtain ⟨attr, herr⟩ := set_address_preinit_raises C
      { start_page := some sp, viewport_size := some vs, downloads_folder := some df,
        history := some [], page_title := some none, viewport_current_page := some 0,
        viewport_pages := some [] }
      [] sp rfl rfl rfl hsp
    refine ⟨attr, ?_⟩
    simp [browserInit, herr, except_bind_ok, except_bind_error]

/-- Witness for C9's universally quantified half: constructing with an
absolute HTTPS start page raises `AttributeError` (on
`request_kwargs`). -/
theorem init_succeeds_only_about_blank_witness :
    ("https://example.com" : String) ≠ "about:blank" ∧
    ∃ attr, browserInit egCollab "https://example.com" (8 * 1024) none none none =
      .error (.attributeError attr) :=
  ⟨by decide,
    (init_succeeds_only_about_blank egCollab (8 * 1024) none none none).2
      "https://example.com" (by decide)⟩

/-! ## Bing result numbering (claim C7) -/

theorem deepLinkSnippets_length (dls : List DeepLink) :
    ∀ idx, (deepLinkSnippets idx dls).length = dls.length := by
  induction dls with
  | nil => intro idx; rfl
  | cons dl rest ih => intro idx; simp [deepLinkSnippets, ih]

theorem newsSnippets_length (ns : List NewsPage) :
    ∀ idx, (newsSnippets idx ns).length = ns.length := by
  induction ns with
  | nil => intro idx; rfl
  | cons p rest ih => intro idx; simp [newsSnippets, ih]

theorem deepLinkSnippets_get (dls : List DeepLink) :
    ∀ (idx i : Nat) (h : i < (deepLinkSnippets idx dls).length),
      ∃ nm u sn, (deepLinkSnippets idx dls)[i] = snippetLine (idx + i + 1) nm u sn := by
  induction dls with
  | nil => intro idx i h; simp [deepLinkSnippets] at h
  | cons dl rest ih =>
    intro idx i h
    cases i with
    | zero => exact ⟨dl.name, dl.url, dl.snippet.getD "", by simp [deepLinkSnippets]⟩
    | succ i =>
      have h' : i < (deepLinkSnippets (idx + 1) rest).length := by
        rw [deepLinkSnippets_length] at h ⊢
        simpa using Nat.lt_of_succ_lt_succ (by simpa [deepLinkSnippets] using h)
      obtain ⟨nm, u, sn, hget⟩ := ih (idx + 1) i h'
      refine ⟨nm, u, sn, ?_⟩
      have hstep : (deepLinkSnippets idx (dl :: rest))[i + 1] =
          (deepLinkSnippets (idx + 1) rest)[i] := by
        simp [deepLinkSnippets]
      rw [hstep, hget]
      have harith : idx + 1 + i + 1 = idx + (i + 1) + 1 := by omega
      rw [harith]

theorem newsSnippets_get (ns : List NewsPage) :
    ∀ (idx i : Nat) (h : i < (newsSnippets idx ns).length),
      ∃ nm u sn, (newsSnippets idx ns)[i] = snippetLine (idx + i + 1) nm u sn := by
  induction ns with
  | nil => intro idx i h; simp [newsSnippets] at h
  | cons p rest ih =>
    intro idx i h
    cases i with
    | zero => exact ⟨p.name, p.url, p.description, by simp [newsSnippets]⟩
    | succ i =>
      have h' : i < (newsSnippets (idx + 1) rest).length := by
        rw [newsSnippets_length] at h ⊢
        simpa using Nat.lt_of_succ_lt_succ (by simpa [newsSnippets] using h)
      obtain ⟨nm, u, sn, hget⟩ := ih (idx + 1) i h'
      refine ⟨nm, u, sn, ?_⟩
      have hstep : (newsSnippets idx (p :: rest))[i + 1] =
          (newsSnippets (idx + 1) rest)[i] := by
        simp [newsSnippets]
      rw [hstep, hget]
      have harith : idx + 1 + i + 1 = idx + (i + 1) + 1 := by omega
      rw [harith]

theorem webPageSnippets_get (ps : List WebPage) :
    ∀ (idx i : Nat) (h : i < (webPageSnippets idx ps).length),
      ∃ nm u sn, (webPageSnippets idx ps)[i] = snippetLine (idx + i + 1) nm u sn := by
  induction ps with
  | nil => intro idx i h; simp [webPageSnippets] at h
  | cons p rest ih =>
    intro idx i h
    cases i with
    | zero => exact ⟨p.name, p.url, p.snippet, by simp [webPageSnippets]⟩
    | succ i =>
      have htail : i < (deepLinkSnippets (idx + 1) (p.deepLinks.getD []) ++
          webPageSnippets (idx + 1 + (p.deepLinks.getD []).length) rest).length := by
        have := h
        simp only [webPageSnippets, List.length_cons] at this
        omega
      have hstep : (webPageSnippets idx (p :: rest))[i + 1] =
          (deepLinkSnippets (idx + 1) (p.deepLinks.getD []) ++
            webPageSnippets (idx + 1 + (p.deepLinks.getD []).length) rest)[i] := by
        simp [webPageSnippets]
      by_cases hlt : i < (deepLinkSnippets (idx + 1) (p.deepLinks.getD [])).length
      · obtain ⟨nm, u, sn, hget⟩ := deepLinkSnippets_get (p.deepLinks.getD []) (idx + 1) i hlt
        refine ⟨nm, u, sn, ?_⟩
        rw [hstep, List.getElem_append_left hlt, hget]
        have harith : idx + 1 + i + 1 = idx + (i + 1) + 1 := by omega
        rw [harith]
      · push_neg at hlt
        have hlen : (deepLinkSnippets (idx + 1) (p.deepLinks.getD [])).length =
            (p.deepLinks.getD []).length := deepLinkSnippets_length _ _
        have hsub : i - (deepLinkSnippets (idx + 1) (p.deepLinks.getD [])).length <
            (webPageSnippets (idx + 1 + (p.deepLinks.getD []).length) rest).length := by
          rw [List.length_append] at htail
          omega
        obtain ⟨nm, u, sn, hget⟩ :=
          ih (idx + 1 + (p.deepLinks.getD []).length)
            (i - (deepLinkSnippets (idx + 1) (p.deepLinks.getD [])).length) hsub
        refine ⟨nm, u, sn, ?_⟩
        rw [hstep, List.getElem_append_right hlt, hget]
        have harith : idx + 1 + (p.deepLinks.getD []).length +
            (i - (deepLinkSnippets (idx + 1) (p.deepLinks.getD [])).length) + 1 =
            idx + (i + 1) + 1 := by
          omega
        rw [harith]

/-- Claim C7: the rendered search Markdown numbers all items with a
single running counter in traversal order — each top-level web result
takes the next number, its deep links take the numbers immediately after
it, and news results continue the same counter without resetting — so
the item at position `i` of the snippet sequence is formatted with
number `i + 1`; and the page title is set to `<query> - Search`. -/
theorem bing_numbering_running_counter (query : String) (results : BingResults) (i : Nat)
    (h : i < (bingAllSnippets results).length) :
    (bing_search_format query results).1 = query ++ " - Search" ∧
    ∃ nm u sn, (bingAllSnippets results)[i] = snippetLine (i + 1) nm u sn := by
  obtain ⟨wps, news⟩ := results
  refine ⟨rfl, ?_⟩
  cases news with
  | none =>
    have hlen : i < (webPageSnippets 0 wps).length := by
      simpa [bingAllSnippets] using h
    have hnil : i < (webPageSnippets 0 wps ++ ([] : List String)).length := by
      simpa using hlen
    obtain ⟨nm, u, sn, hget⟩ := webPageSnippets_get wps 0 i hlen
    refine ⟨nm, u, sn, ?_⟩
    show (webPageSnippets 0 wps ++ ([] : List String))[i] = snippetLine (i + 1) nm u sn
    rw [List.getElem_append_left hlen, hget, Nat.zero_add]
  | some ns =>
    have hlen2 : i < (webPageSnippets 0 wps ++
        newsSnippets (webPageSnippets 0 wps).length ns).length := by
      simpa [bingAllSnippets] using h
    by_cases hlt : i < (webPageSnippets 0 wps).length
    · obtain ⟨nm, u, sn, hget⟩ := webPageSnippets_get wps 0 i hlt
      refine ⟨nm, u, sn, ?_⟩
      show (webPageSnippets 0 wps ++
          newsSnippets (webPageSnippets 0 wps).length ns)[i] = snippetLine (i + 1) nm u sn
      rw [List.getElem_append_left hlt, hget, Nat.zero_add]
    · push_neg at hlt
      have hsub : i - (webPageSnippets 0 wps).length <
          (newsSnippets (webPageSnippets 0 wps).length ns).length := by
        rw [List.length_append] at hlen2
        omega
      obtain ⟨nm, u, sn, hget⟩ :=
        newsSnippets_get ns (webPageSnippets 0 wps).length
          (i - (webPageSnippets 0 wps).length) hsub
      refine ⟨nm, u, sn, ?_⟩
      show (webPageSnippets 0 wps ++
          newsSnippets (webPageSnippets 0 wps).length ns)[i] = snippetLine (i + 1) nm u sn
      rw [List.getElem_append_right hlt, hget]
      have harith : (webPageSnippets 0 wps).length +
          (i - (webPageSnippets 0 wps).length) + 1 = i + 1 := by omega
      rw [harith]

/-- Witness for C7 at the spec's scenario: two web results where the
first has one deep link — the third item in traversal order (index 2,
result B) is numbered 3, not 1 or 2: the counter never resets. -/
theorem bing_numbering_running_counter_witness :
    2 < (bingAllSnippets egBingResults).length ∧
    ((bing_search_format "cats" egBingResults).1 = "cats" ++ " - Search" ∧
     ∃ nm u sn, (bingAllSnippets egBingResults)[2] = snippetLine (2 + 1) nm u sn) :=
  ⟨by decide, bing_numbering_running_counter "cats" egBingResults 2 (by decide)⟩

end BrowserUtils
